import Mathlib

/-!
Verification of the APEX arbitrage executor library (src/rust/src/lib.rs)
against its natural-language specification.  The Rust source defines two
plain data types, `ExecutionPlan` and `ExecutionResult`, and one entry
point, `execute_arbitrage`, a stub that always reports success, fabricates
a transaction hash from the opportunity id, and echoes the gas limit back
as `gas_used`.  The definitions below are a shallow embedding of that file:
strings stay strings, the Rust `u64` fields carry no arithmetic and are
embedded as `Nat`, `Option` embeds `Option`.
-/

/-- `ExecutionPlan` from src/rust/src/lib.rs lines 6-15.  `nonce` and
`deadline` are `u64` in the source; no arithmetic is performed on them, so
they are embedded as `Nat`. -/
structure ExecutionPlan where
  opportunity_id : String
  flashloan_provider : String
  calldata : String
  gas_limit : String
  gas_price : String
  nonce : Nat
  deadline : Nat
deriving DecidableEq, Repr

/-- `ExecutionResult` from src/rust/src/lib.rs lines 17-23. -/
structure ExecutionResult where
  success : Bool
  tx_hash : Option String
  error : Option String
  gas_used : Option String
deriving DecidableEq, Repr

/-- Rust `format!("0x\x7b:0>64\x7d", s)` without the literal `0x` part: the
argument is right-aligned and left-padded with the fill character `0` to a
minimum width of 64 characters; an argument of 64 or more characters is
emitted unchanged.  Rust measures the width in characters (code points), as
does `String.length`. -/
def padStart64 (s : String) : String :=
  if s.length < 64 then String.mk (List.replicate (64 - s.length) '0') ++ s else s

/-- `execute_arbitrage` from src/rust/src/lib.rs lines 26-43.  The source
prints a log line and then unconditionally builds this result; the embedding
keeps the pure result value. -/
def execute_arbitrage (plan : ExecutionPlan) : ExecutionResult :=
  { success := true
    tx_hash := some ("0x" ++ padStart64 plan.opportunity_id)
    error := none
    gas_used := some plan.gas_limit }

/-- Modelled from the spec: the source contains no gas-field validation, but
the spec describes `gas_limit` and `gas_price` as decimal-string-encoded
unsigned integers that the intended Transaction Builder would parse,
rejecting the plan otherwise.  A string parses as a non-negative integer iff
it is a non-empty run of decimal digits (stated over the string's character
list). -/
def parsesAsNonNegInt (s : String) : Bool :=
  !s.data.isEmpty && s.data.all (fun c => c.isDigit)

/-- A plan whose `gas_limit` does not parse as a non-negative integer. -/
def planBadGas : ExecutionPlan :=
  { opportunity_id := "op-bad"
    flashloan_provider := "aave"
    calldata := "0xdeadbeef"
    gas_limit := "not-a-number"
    gas_price := "50000000000"
    nonce := 0
    deadline := 1 }

/-- A plan whose deadline (0) is in the past at any positive call time. -/
def planPastDeadline : ExecutionPlan :=
  { opportunity_id := "op-late"
    flashloan_provider := "aave"
    calldata := "0xdeadbeef"
    gas_limit := "300000"
    gas_price := "50000000000"
    nonce := 0
    deadline := 0 }

/-- The plan of the spec's scenario in section 8: opportunity `op-1`, gas
limit 300000, gas price 50 gwei, nonce 0, far-future deadline. -/
def planOpOne : ExecutionPlan :=
  { opportunity_id := "op-1"
    flashloan_provider := "aave"
    calldata := "0xdeadbeef"
    gas_limit := "300000"
    gas_price := "50000000000"
    nonce := 0
    deadline := 9999999999 }

/-- Twin of `planOpOne` differing in every field except `opportunity_id`
and `gas_limit`. -/
def planOpOneTwin : ExecutionPlan :=
  { opportunity_id := "op-1"
    flashloan_provider := "balancer"
    calldata := "0xcafe"
    gas_limit := "300000"
    gas_price := "1"
    nonce := 7
    deadline := 0 }

/-- Unfolding of the padding: the result is always the `0`-fill followed by
the argument (when the argument has 64 or more characters the fill is
empty). -/
theorem padStart64_eq (s : String) :
    padStart64 s = String.mk (List.replicate (64 - s.length) '0') ++ s := by
  unfold padStart64
  split
  · rfl
  · next h =>
    have h0 : 64 - s.length = 0 := by omega
    rw [h0]
    cases s with
    | mk data => rfl

/-- Arguments already 64 characters wide or wider are not padded. -/
theorem padStart64_of_ge (s : String) (h : 64 ≤ s.length) :
    padStart64 s = s := by
  unfold padStart64
  rw [if_neg (by omega)]

/-- The padded string has exactly `max 64 (length of the argument)`
characters. -/
theorem padStart64_length (s : String) :
    (padStart64 s).length = max s.length 64 := by
  rw [padStart64_eq]
  cases s with
  | mk data =>
    show (String.mk (List.replicate (64 - data.length) '0' ++ data)).length = _
    simp [String.length]
    omega

/-- Claim C1: every `ExecutionResult` produced by `execute_arbitrage`
satisfies exactly one of (success with `tx_hash` set) or (failure with
`error` set): `tx_hash` and `error` are never both absent, a failed result
always carries an error, and a successful result never carries one. -/
theorem C1_result_invariant (plan : ExecutionPlan) :
    ((execute_arbitrage plan).tx_hash.isSome || (execute_arbitrage plan).error.isSome) = true
    ∧ ((!(execute_arbitrage plan).success) || (execute_arbitrage plan).error.isNone) = true
    ∧ ((execute_arbitrage plan).success || (execute_arbitrage plan).error.isSome) = true
    ∧ Bool.xor ((execute_arbitrage plan).success && (execute_arbitrage plan).tx_hash.isSome)
        ((!(execute_arbitrage plan).success) && (execute_arbitrage plan).error.isSome) = true := by
  simp [execute_arbitrage]

/-- Claim C2, counterexample: `planBadGas` has a `gas_limit` that does not
parse as a non-negative integer, yet `execute_arbitrage` returns success
with no error and a transaction hash — not the claimed
`InvalidPlan` failure. -/
theorem C2_counterexample :
    parsesAsNonNegInt planBadGas.gas_limit = false
    ∧ (execute_arbitrage planBadGas).success = true
    ∧ (execute_arbitrage planBadGas).error = none
    ∧ (execute_arbitrage planBadGas).tx_hash.isSome = true := by
  refine ⟨by decide, rfl, rfl, rfl⟩

/-- Claim C2 as amended: the stub performs no validation, so even for a
plan whose `gas_limit` or `gas_price` fails to parse as a non-negative
integer it returns success with no error and a fabricated hash. -/
theorem C2_no_validation (plan : ExecutionPlan)
    (h : parsesAsNonNegInt plan.gas_limit = false ∨ parsesAsNonNegInt plan.gas_price = false) :
    (execute_arbitrage plan).success = true
    ∧ (execute_arbitrage plan).error = none
    ∧ (execute_arbitrage plan).tx_hash.isSome = true := by
  exact ⟨rfl, rfl, rfl⟩

/-- Claim C2 witness: the amended claim instantiated at `planBadGas`. -/
theorem C2_no_validation_witness :
    (execute_arbitrage planBadGas).success = true
    ∧ (execute_arbitrage planBadGas).error = none
    ∧ (execute_arbitrage planBadGas).tx_hash.isSome = true :=
  C2_no_validation planBadGas (Or.inl (by decide))

/-- Claim C3, counterexample: `planPastDeadline` has deadline 0, in the past
at call time 1, yet `execute_arbitrage` returns success with no error — not
the claimed `TimedOut` failure. -/
theorem C3_counterexample :
    planPastDeadline.deadline < 1
    ∧ (execute_arbitrage planPastDeadline).success = true
    ∧ (execute_arbitrage planPastDeadline).error = none := by
  refine ⟨by decide, rfl, rfl⟩

/-- Claim C3 as amended: the stub ignores the deadline entirely — for any
plan whose deadline is already in the past at call time it still returns
success with no error and a transaction hash (it does call no Node Client:
the stub contains none). -/
theorem C3_deadline_ignored (plan : ExecutionPlan) (now : Nat)
    (h : plan.deadline < now) :
    (execute_arbitrage plan).success = true
    ∧ (execute_arbitrage plan).error = none
    ∧ (execute_arbitrage plan).tx_hash.isSome = true := by
  exact ⟨rfl, rfl, rfl⟩

/-- Claim C3 witness: the amended claim at `planPastDeadline`, call time 1. -/
theorem C3_deadline_ignored_witness :
    (execute_arbitrage planPastDeadline).success = true
    ∧ (execute_arbitrage planPastDeadline).error = none
    ∧ (execute_arbitrage planPastDeadline).tx_hash.isSome = true :=
  C3_deadline_ignored planPastDeadline 1 (by decide)

/-- Claim C4: the stub unconditionally succeeds — for every plan the result
has `success = true`, `error = none`, and a fabricated hash derived from the
plan's opportunity id; no input yields `success = false`. -/
theorem C4_always_succeeds (plan : ExecutionPlan) :
    (execute_arbitrage plan).success = true
    ∧ (execute_arbitrage plan).error = none
    ∧ (execute_arbitrage plan).tx_hash = some ("0x" ++ padStart64 plan.opportunity_id) := by
  exact ⟨rfl, rfl, rfl⟩

/-- Claim C5, counterexample: at the scenario's plan (`planOpOne`, whose
broadcast the spec takes to be rejected until the deadline) the stub returns
success with a hash and no error — no execution yields the claimed
`{success:false, tx_hash:None, error:Some(TimedOut)}` result, since the stub
never broadcasts at all. -/
theorem C5_counterexample :
    (execute_arbitrage planOpOne).success = true
    ∧ (execute_arbitrage planOpOne).error = none
    ∧ (execute_arbitrage planOpOne).tx_hash.isSome = true := by
  refine ⟨rfl, rfl, rfl⟩

/-- Claim C5 as amended: whatever the network would do, the stub performs no
broadcast, and every execution returns success with a hash and no error;
no execution of the entry point yields `success = false`. -/
theorem C5_no_timeout_path (plan : ExecutionPlan) :
    (execute_arbitrage plan).success = true
    ∧ (execute_arbitrage plan).error = none
    ∧ (execute_arbitrage plan).gas_used.isSome = true := by
  exact ⟨rfl, rfl, rfl⟩

/-- Claim C6: for the scenario plan (`op-1`, gas limit 300000, gas price
50000000000, nonce 0, far-future deadline) — for any provider and calldata —
the result has `success = true`, some `tx_hash`, `error = none`, and some
`gas_used`.  (The node's behaviour is irrelevant: the stub consults none.) -/
theorem C6_scenario_op1 (fp cd : String) :
    (execute_arbitrage
      { opportunity_id := "op-1", flashloan_provider := fp, calldata := cd,
        gas_limit := "300000", gas_price := "50000000000",
        nonce := 0, deadline := 9999999999 }).success = true
    ∧ (∃ h, (execute_arbitrage
      { opportunity_id := "op-1", flashloan_provider := fp, calldata := cd,
        gas_limit := "300000", gas_price := "50000000000",
        nonce := 0, deadline := 9999999999 }).tx_hash = some h)
    ∧ (execute_arbitrage
      { opportunity_id := "op-1", flashloan_provider := fp, calldata := cd,
        gas_limit := "300000", gas_price := "50000000000",
        nonce := 0, deadline := 9999999999 }).error = none
    ∧ (∃ g, (execute_arbitrage
      { opportunity_id := "op-1", flashloan_provider := fp, calldata := cd,
        gas_limit := "300000", gas_price := "50000000000",
        nonce := 0, deadline := 9999999999 }).gas_used = some g) := by
  exact ⟨rfl, ⟨_, rfl⟩, rfl, ⟨_, rfl⟩⟩

/-- Claim C7: `execute_arbitrage` is a total function — for every plan it
returns exactly one `ExecutionResult`. -/
theorem C7_total (plan : ExecutionPlan) :
    ∃! r : ExecutionResult, execute_arbitrage plan = r :=
  ⟨execute_arbitrage plan, rfl, fun _ h => h.symm⟩

/-- Claim C8: the returned hash is `0x` followed by the opportunity id
left-padded with `0` to a minimum width of 64 characters; an id of 64 or
more characters is emitted unpadded, and the hash length is
`2 + max (length of the id) 64`, so the hash is not fixed-length. -/
theorem C8_hash_format (plan : ExecutionPlan) :
    (execute_arbitrage plan).tx_hash
      = some ("0x" ++ (String.mk (List.replicate (64 - plan.opportunity_id.length) '0')
          ++ plan.opportunity_id))
    ∧ (64 ≤ plan.opportunity_id.length →
        (execute_arbitrage plan).tx_hash = some ("0x" ++ plan.opportunity_id))
    ∧ Option.map String.length (execute_arbitrage plan).tx_hash
        = some (2 + max plan.opportunity_id.length 64) := by
  refine ⟨?_, ?_, ?_⟩
  · show some ("0x" ++ padStart64 plan.opportunity_id) = _
    rw [padStart64_eq]
  · intro h
    show some ("0x" ++ padStart64 plan.opportunity_id) = _
    rw [padStart64_of_ge plan.opportunity_id h]
  · show some (("0x" ++ padStart64 plan.opportunity_id).length) = _
    rw [String.length_append, padStart64_length,
      show "0x".length = 2 from rfl, Nat.max_comm]

/-- Claim C9: the result depends only on `opportunity_id` and `gas_limit` —
two plans agreeing on those two fields yield equal results, however the
other five fields differ. -/
theorem C9_noninterference (p q : ExecutionPlan)
    (hid : p.opportunity_id = q.opportunity_id)
    (hgas : p.gas_limit = q.gas_limit) :
    execute_arbitrage p = execute_arbitrage q := by
  simp [execute_arbitrage, hid, hgas]

/-- Claim C9 witness: `planOpOne` and `planOpOneTwin` agree only on
`opportunity_id` and `gas_limit` and get equal results. -/
theorem C9_noninterference_witness :
    execute_arbitrage planOpOne = execute_arbitrage planOpOneTwin :=
  C9_noninterference planOpOne planOpOneTwin rfl rfl

/-- Claim C10: `gas_used` is always `some` of the plan's `gas_limit` string,
verbatim, whatever that string holds. -/
theorem C10_gas_used_verbatim (plan : ExecutionPlan) :
    (execute_arbitrage plan).gas_used = some plan.gas_limit
    ∧ (execute_arbitrage plan).gas_used.isSome = true := by
  exact ⟨rfl, rfl⟩
